import Mathlib

/-!
Shallow embedding of the in-memory data store and query service of
`src/services/mockApi.ts` (types from `src/types.ts`), together with proofs
about its pagination, aggregation, CRUD and error-handling behaviour.

Conventions of the embedding:
* JavaScript arrays become `List`, `undefined`/missing optional fields become
  `Option`, timestamps (`Date`) become `Nat` (epoch milliseconds).
* Promise resolution/rejection becomes `Except String` carrying the exact
  `Error` message strings of the source.
* `Array.prototype.sort` (stable since ES2019) is modelled by the stable
  `List.insertionSort` with the relation induced by the source's comparator.
* Operations that read the current time (`new Date()`) take an explicit
  `now : Nat` argument.
* Each API function takes the mutable module state (the three collections)
  explicitly and returns the result together with the successor state.
-/

namespace MockApi

/-- `Role` from `src/types.ts`. -/
inductive Role : Type
  | student
  | admin
deriving DecidableEq, Repr

/-- `User` from `src/types.ts`; `password` and the profile fields are optional
in the TypeScript interface. -/
structure User : Type where
  id : String
  name : String
  email : String
  password : Option String
  role : Role
  profilePicture : Option String
  phoneNumber : Option String
  dateOfBirth : Option String
  address : Option String
  isBlocked : Bool
  createdAt : Nat
deriving DecidableEq, Repr

/-- `Course` from `src/types.ts`. -/
structure Course : Type where
  id : String
  name : String
  description : String
  link : Option String
  thumbnail : Option String
  createdAt : Nat
deriving DecidableEq, Repr

/-- `Feedback` from `src/types.ts`. -/
structure Feedback : Type where
  id : String
  studentId : String
  studentName : String
  courseId : String
  rating : Nat
  message : String
  createdAt : Nat
deriving DecidableEq, Repr

/-- The module-level mutable collections of `mockApi.ts`
(`users`, `courses`, `feedbacks`). -/
structure ApiState : Type where
  users : List User
  courses : List Course
  feedbacks : List Feedback
deriving DecidableEq, Repr

/-- Result record of the `paginate` helper: `{ data, total, totalPages }`. -/
structure Paginated (α : Type) : Type where
  data : List α
  total : Nat
  totalPages : Nat
deriving DecidableEq, Repr

/-- JavaScript `Array.prototype.slice(start, stop)`: negative indices count
from the end, indices are clamped to `[0, length]`. -/
def jsSlice {α : Type} (l : List α) (start stop : Int) : List α :=
  let len : Int := l.length
  let s := if start < 0 then max (len + start) 0 else min start len
  let e := if stop < 0 then max (len + stop) 0 else min stop len
  (l.drop s.toNat).take (e - s).toNat

/-- The shared pagination helper `paginate` of `mockApi.ts`:
`total = items.length`, `totalPages = Math.ceil(total / limit)`
(for naturals with `limit ≥ 1` this is `(total + limit - 1) / limit`),
`data = items.slice((page - 1) * limit, page * limit)`. -/
def paginate {α : Type} (items : List α) (page limit : Nat) : Paginated α :=
  { total := items.length
    totalPages := (items.length + limit - 1) / limit
    data := jsSlice items (((page : Int) - 1) * limit) ((page : Int) * limit) }

/-- `api.login`: exact email+password match; reject `Invalid credentials` on
no match, `Your account is blocked.` when the matched user is blocked. -/
def login (s : ApiState) (email password : String) :
    Except String User × ApiState :=
  match s.users.find? (fun u => u.email == email && u.password == some password) with
  | none => (.error "Invalid credentials", s)
  | some u =>
      if u.isBlocked then (.error "Your account is blocked.", s)
      else (.ok u, s)

/-- `api.signup`: reject `Email already exists` when any user has the email,
otherwise push a fresh STUDENT user with id `user-${users.length + 1}`. -/
def signup (s : ApiState) (name email password : String) (now : Nat) :
    Except String User × ApiState :=
  if s.users.any (fun u => u.email == email) then
    (.error "Email already exists", s)
  else
    let newUser : User :=
      { id := "user-" ++ toString (s.users.length + 1)
        name := name
        email := email
        password := some password
        role := .student
        profilePicture := none
        phoneNumber := none
        dateOfBirth := none
        address := none
        isBlocked := false
        createdAt := now }
    (.ok newUser, { s with users := s.users ++ [newUser] })

/-- `Partial<User>` payload of `api.updateProfile`: every field optionally
present. -/
structure UserPatch : Type where
  id : Option String := none
  name : Option String := none
  email : Option String := none
  password : Option String := none
  role : Option Role := none
  profilePicture : Option String := none
  phoneNumber : Option String := none
  dateOfBirth : Option String := none
  address : Option String := none
  isBlocked : Option Bool := none
  createdAt : Option Nat := none
deriving DecidableEq, Repr

/-- The spread merge `{ ...user, ...data }` of `api.updateProfile`: a field
present in the payload overwrites, an absent field is preserved. -/
def mergeUser (u : User) (d : UserPatch) : User :=
  { id := d.id.getD u.id
    name := d.name.getD u.name
    email := d.email.getD u.email
    password := match d.password with | some p => some p | none => u.password
    role := d.role.getD u.role
    profilePicture :=
      match d.profilePicture with | some p => some p | none => u.profilePicture
    phoneNumber :=
      match d.phoneNumber with | some p => some p | none => u.phoneNumber
    dateOfBirth :=
      match d.dateOfBirth with | some p => some p | none => u.dateOfBirth
    address := match d.address with | some p => some p | none => u.address
    isBlocked := d.isBlocked.getD u.isBlocked
    createdAt := d.createdAt.getD u.createdAt }

/-- `api.updateProfile`: `User not found` when the id is absent, otherwise
spread-merge and replace (via `users.map`) every entry with that id. -/
def updateProfile (s : ApiState) (userId : String) (d : UserPatch) :
    Except String User × ApiState :=
  match s.users.find? (fun u => u.id == userId) with
  | none => (.error "User not found", s)
  | some u =>
      let merged := mergeUser u d
      (.ok merged,
        { s with users := s.users.map (fun x => if x.id == userId then merged else x) })

/-- In-place mutation of the first list entry satisfying `p` (JavaScript
mutates the object returned by `find`). -/
def updateFirst {α : Type} (p : α → Bool) (f : α → α) : List α → List α
  | [] => []
  | x :: xs => if p x then f x :: xs else x :: updateFirst p f xs

/-- `api.changePassword`: a single rejection `Invalid current password` both
when the user is absent and when the stored password differs from `oldPass`;
on success the found user's password is overwritten in place. -/
def changePassword (s : ApiState) (userId oldPass newPass : String) :
    Except String Bool × ApiState :=
  match s.users.find? (fun u => u.id == userId) with
  | none => (.error "Invalid current password", s)
  | some u =>
      if u.password == some oldPass then
        let users2 := updateFirst (fun x => x.id == userId)
          (fun x => { x with password := some newPass }) s.users
        (.ok true, { s with users := users2 })
      else (.error "Invalid current password", s)

/-- `api.getCourses`: snapshot of the collection. -/
def getCourses (s : ApiState) : Except String (List Course) × ApiState :=
  (.ok s.courses, s)

/-- `Omit<Course, 'id' | 'createdAt'>` payload of `api.addCourse`. -/
structure CourseData : Type where
  name : String
  description : String
  link : Option String := none
  thumbnail : Option String := none
deriving DecidableEq, Repr

/-- `api.addCourse`: push a course with id `course-${courses.length + 1}`. -/
def addCourse (s : ApiState) (d : CourseData) (now : Nat) :
    Except String Course × ApiState :=
  let newCourse : Course :=
    { id := "course-" ++ toString (s.courses.length + 1)
      name := d.name
      description := d.description
      link := d.link
      thumbnail := d.thumbnail
      createdAt := now }
  (.ok newCourse, { s with courses := s.courses ++ [newCourse] })

/-- `Partial<Course>` payload of `api.updateCourse`. -/
structure CoursePatch : Type where
  id : Option String := none
  name : Option String := none
  description : Option String := none
  link : Option String := none
  thumbnail : Option String := none
  createdAt : Option Nat := none
deriving DecidableEq, Repr

/-- The spread merge `{ ...course, ...data }` of `api.updateCourse`. -/
def mergeCourse (c : Course) (d : CoursePatch) : Course :=
  { id := d.id.getD c.id
    name := d.name.getD c.name
    description := d.description.getD c.description
    link := match d.link with | some p => some p | none => c.link
    thumbnail := match d.thumbnail with | some p => some p | none => c.thumbnail
    createdAt := d.createdAt.getD c.createdAt }

/-- `api.updateCourse`: `Course not found` when the id is absent, otherwise
spread-merge and replace. -/
def updateCourse (s : ApiState) (id : String) (d : CoursePatch) :
    Except String Course × ApiState :=
  match s.courses.find? (fun c => c.id == id) with
  | none => (.error "Course not found", s)
  | some c =>
      let merged := mergeCourse c d
      (.ok merged,
        { s with courses := s.courses.map (fun x => if x.id == id then merged else x) })

/-- `api.deleteCourse`: filter the collection, always resolve `true`. -/
def deleteCourse (s : ApiState) (id : String) : Except String Bool × ApiState :=
  (.ok true, { s with courses := s.courses.filter (fun c => c.id != id) })

/-- The comparator `(a, b) => b.createdAt - a.createdAt` used by both feedback
listings: stable sort by `createdAt` descending. -/
def sortByCreatedAtDesc (l : List Feedback) : List Feedback :=
  l.insertionSort (fun a b => b.createdAt ≤ a.createdAt)

/-- `api.getStudentFeedback`: filter by `studentId`, sort by `createdAt`
descending, then paginate. -/
def getStudentFeedback (s : ApiState) (studentId : String) (page limit : Nat) :
    Except String (Paginated Feedback) × ApiState :=
  let studentFeedbacks :=
    sortByCreatedAtDesc (s.feedbacks.filter (fun f => f.studentId == studentId))
  (.ok (paginate studentFeedbacks page limit), s)

/-- The optional filters of `api.getAllFeedback`. -/
structure FeedbackFilters : Type where
  courseId : Option String := none
  rating : Option Nat := none
deriving DecidableEq, Repr

/-- `api.getAllFeedback`: each filter is applied only when truthy
(`if (filters.courseId)`, `if (filters.rating)`), so an empty-string course id
or a zero rating is ignored; then sort by `createdAt` descending and
paginate. -/
def getAllFeedback (s : ApiState) (page limit : Nat) (filters : FeedbackFilters) :
    Except String (Paginated Feedback) × ApiState :=
  let f1 :=
    match filters.courseId with
    | some c => if c = "" then s.feedbacks
                else s.feedbacks.filter (fun f => f.courseId == c)
    | none => s.feedbacks
  let f2 :=
    match filters.rating with
    | some r => if r = 0 then f1 else f1.filter (fun f => f.rating == r)
    | none => f1
  (.ok (paginate (sortByCreatedAtDesc f2) page limit), s)

/-- `Omit<Feedback, 'id' | 'createdAt'>` payload of `api.addFeedback`. -/
structure FeedbackData : Type where
  studentId : String
  studentName : String
  courseId : String
  rating : Nat
  message : String
deriving DecidableEq, Repr

/-- `api.addFeedback`: unshift (prepend) a feedback with id
`feedback-${feedbacks.length + 1}`. -/
def addFeedback (s : ApiState) (d : FeedbackData) (now : Nat) :
    Except String Feedback × ApiState :=
  let newFeedback : Feedback :=
    { id := "feedback-" ++ toString (s.feedbacks.length + 1)
      studentId := d.studentId
      studentName := d.studentName
      courseId := d.courseId
      rating := d.rating
      message := d.message
      createdAt := now }
  (.ok newFeedback, { s with feedbacks := newFeedback :: s.feedbacks })

/-- `Partial<Feedback>` payload of `api.updateFeedback`. -/
structure FeedbackPatch : Type where
  id : Option String := none
  studentId : Option String := none
  studentName : Option String := none
  courseId : Option String := none
  rating : Option Nat := none
  message : Option String := none
  createdAt : Option Nat := none
deriving DecidableEq, Repr

/-- The spread merge `{ ...feedback, ...data }` of `api.updateFeedback`. -/
def mergeFeedback (f : Feedback) (d : FeedbackPatch) : Feedback :=
  { id := d.id.getD f.id
    studentId := d.studentId.getD f.studentId
    studentName := d.studentName.getD f.studentName
    courseId := d.courseId.getD f.courseId
    rating := d.rating.getD f.rating
    message := d.message.getD f.message
    createdAt := d.createdAt.getD f.createdAt }

/-- `api.updateFeedback`: `Feedback not found` when the id is absent,
otherwise spread-merge and replace. -/
def updateFeedback (s : ApiState) (id : String) (d : FeedbackPatch) :
    Except String Feedback × ApiState :=
  match s.feedbacks.find? (fun f => f.id == id) with
  | none => (.error "Feedback not found", s)
  | some f =>
      let merged := mergeFeedback f d
      (.ok merged,
        { s with feedbacks :=
            s.feedbacks.map (fun x => if x.id == id then merged else x) })

/-- `api.deleteFeedback`: filter the collection, always resolve `true`. -/
def deleteFeedback (s : ApiState) (id : String) : Except String Bool × ApiState :=
  (.ok true, { s with feedbacks := s.feedbacks.filter (fun f => f.id != id) })

/-- The comparator `(a, b) => a.name.localeCompare(b.name)` of `api.getUsers`,
modelled as lexicographic order on `name`: stable ascending sort. -/
def sortByNameAsc (l : List User) : List User :=
  l.insertionSort (fun a b => a.name ≤ b.name)

/-- `api.getUsers`: the whole collection sorted by name ascending, then
paginated. -/
def getUsers (s : ApiState) (page limit : Nat) :
    Except String (Paginated User) × ApiState :=
  (.ok (paginate (sortByNameAsc s.users) page limit), s)

/-- `api.updateUserStatus`: `User not found` when the id is absent, otherwise
set `isBlocked` on the found user in place. -/
def updateUserStatus (s : ApiState) (id : String) (isBlocked : Bool) :
    Except String User × ApiState :=
  match s.users.find? (fun u => u.id == id) with
  | none => (.error "User not found", s)
  | some u =>
      let users2 := updateFirst (fun x => x.id == id)
        (fun x => { x with isBlocked := isBlocked }) s.users
      (.ok { u with isBlocked := isBlocked }, { s with users := users2 })

/-- `api.deleteUser`: remove the user and every feedback whose `studentId`
matches; always resolve `true`. -/
def deleteUser (s : ApiState) (id : String) : Except String Bool × ApiState :=
  (.ok true,
    { s with
      users := s.users.filter (fun u => u.id != id)
      feedbacks := s.feedbacks.filter (fun f => f.studentId != id) })

/-- Result record of `api.getDashboardStats`. -/
structure DashboardStats : Type where
  studentCount : Nat
  feedbackCount : Nat
  courseCount : Nat
deriving DecidableEq, Repr

/-- `api.getDashboardStats`. -/
def getDashboardStats (s : ApiState) : Except String DashboardStats × ApiState :=
  ( .ok
      { studentCount := (s.users.filter (fun u => u.role == Role.student)).length
        feedbackCount := s.feedbacks.length
        courseCount := s.courses.length },
    s )

/-- One step of building `ratingsMap` in `api.getCourseRatings`: insert
`{total: 0, count: 0}` for an unseen course id (JavaScript `Map` keeps
insertion order, so at the end), then add the rating and bump the count. -/
def mapBump : List (String × Nat × Nat) → String → Nat → List (String × Nat × Nat)
  | [], cid, r => [(cid, (r, 1))]
  | (k, t, c) :: rest, cid, r =>
      if k == cid then (k, (t + r, c + 1)) :: rest
      else (k, (t, c)) :: mapBump rest cid r

/-- The `ratingsMap` accumulated over `feedbacks` in `api.getCourseRatings`:
course id ↦ (sum of ratings, count). -/
def ratingsMap (fbs : List Feedback) : List (String × Nat × Nat) :=
  fbs.foldl (fun m f => mapBump m f.courseId f.rating) []

/-- `Map.get` on the modelled ratings map. -/
def mapGet? (m : List (String × Nat × Nat)) (cid : String) : Option (Nat × Nat) :=
  (m.find? (fun e => e.1 == cid)).map (fun e => e.2)

/-- `parseFloat(x.toFixed(2))`: round to the nearest hundredth. -/
def roundTo2 (q : ℚ) : ℚ :=
  ((round (q * 100) : ℤ) : ℚ) / 100

/-- The per-course average of `api.getCourseRatings`:
`(ratingsMap.get(id)?.total || 0) / (ratingsMap.get(id)?.count || 1)`,
rounded to 2 decimals. -/
def courseAvg (m : List (String × Nat × Nat)) (cid : String) : ℚ :=
  let t : ℚ :=
    match mapGet? m cid with
    | some p => (p.1 : ℚ)
    | none => 0
  let c : ℚ :=
    match mapGet? m cid with
    | some p => if p.2 = 0 then 1 else (p.2 : ℚ)
    | none => 1
  roundTo2 (t / c)

/-- `api.getCourseRatings`: one `{name, avgRating}` entry per course, sorted
by `avgRating` descending (comparator `(a, b) => b.avgRating - a.avgRating`). -/
def getCourseRatings (s : ApiState) :
    Except String (List (String × ℚ)) × ApiState :=
  let m := ratingsMap s.feedbacks
  ( .ok ((s.courses.map (fun c => (c.name, courseAvg m c.id))).insertionSort
      (fun a b => b.2 ≤ a.2)),
    s )

/-- The full interface of `mockApi.ts` as a single syntactic type of
operations, for statements quantifying over every store operation. -/
inductive Op : Type
  | login (email password : String)
  | signup (name email password : String) (now : Nat)
  | updateProfile (userId : String) (d : UserPatch)
  | changePassword (userId oldPass newPass : String)
  | getCourses
  | addCourse (d : CourseData) (now : Nat)
  | updateCourse (id : String) (d : CoursePatch)
  | deleteCourse (id : String)
  | getStudentFeedback (studentId : String) (page limit : Nat)
  | getAllFeedback (page limit : Nat) (filters : FeedbackFilters)
  | addFeedback (d : FeedbackData) (now : Nat)
  | updateFeedback (id : String) (d : FeedbackPatch)
  | deleteFeedback (id : String)
  | getUsers (page limit : Nat)
  | updateUserStatus (id : String) (isBlocked : Bool)
  | deleteUser (id : String)
  | getDashboardStats
  | getCourseRatings

/-- The rejection message of an operation's result, if it rejected. -/
def errOf {α : Type} : Except String α → Option String
  | .error e => some e
  | .ok _ => none

/-- Run an operation: the rejection (if any) and the successor state. -/
def runOp (op : Op) (s : ApiState) : Option String × ApiState :=
  match op with
  | .login e p => (errOf (login s e p).1, (login s e p).2)
  | .signup n e p now => (errOf (signup s n e p now).1, (signup s n e p now).2)
  | .updateProfile id d => (errOf (updateProfile s id d).1, (updateProfile s id d).2)
  | .changePassword id o n =>
      (errOf (changePassword s id o n).1, (changePassword s id o n).2)
  | .getCourses => (errOf (getCourses s).1, (getCourses s).2)
  | .addCourse d now => (errOf (addCourse s d now).1, (addCourse s d now).2)
  | .updateCourse id d => (errOf (updateCourse s id d).1, (updateCourse s id d).2)
  | .deleteCourse id => (errOf (deleteCourse s id).1, (deleteCourse s id).2)
  | .getStudentFeedback sid page limit =>
      (errOf (getStudentFeedback s sid page limit).1,
        (getStudentFeedback s sid page limit).2)
  | .getAllFeedback page limit filters =>
      (errOf (getAllFeedback s page limit filters).1,
        (getAllFeedback s page limit filters).2)
  | .addFeedback d now => (errOf (addFeedback s d now).1, (addFeedback s d now).2)
  | .updateFeedback id d =>
      (errOf (updateFeedback s id d).1, (updateFeedback s id d).2)
  | .deleteFeedback id => (errOf (deleteFeedback s id).1, (deleteFeedback s id).2)
  | .getUsers page limit => (errOf (getUsers s page limit).1, (getUsers s page limit).2)
  | .updateUserStatus id b =>
      (errOf (updateUserStatus s id b).1, (updateUserStatus s id b).2)
  | .deleteUser id => (errOf (deleteUser s id).1, (deleteUser s id).2)
  | .getDashboardStats => (errOf (getDashboardStats s).1, (getDashboardStats s).2)
  | .getCourseRatings => (errOf (getCourseRatings s).1, (getCourseRatings s).2)


/-! ### Helper lemmas about the pagination primitive -/

/-- Natural-number ceiling division `(t + L - 1) / L` is an upper bound
multiplier: `t ≤ ((t + L - 1) / L) * L`. -/
theorem le_ceilDivNat_mul (t L : Nat) (hL : 0 < L) :
    t ≤ ((t + L - 1) / L) * L := by
  rw [Nat.mul_comm]
  have hmod := Nat.div_add_mod (t + L - 1) L
  have hmlt : (t + L - 1) % L < L := Nat.mod_lt _ hL
  generalize (t + L - 1) % L = m at hmod hmlt
  generalize L * ((t + L - 1) / L) = x at hmod ⊢
  omega

/-- `(t + L - 1) / L` is exactly `⌈t / L⌉` computed over `ℚ`, for `L ≥ 1`. -/
theorem natCeil_div_eq (t L : Nat) (hL : 0 < L) :
    (t + L - 1) / L = ⌈(t : ℚ) / (L : ℚ)⌉₊ := by
  have hLQ : (0 : ℚ) < (L : ℚ) := by exact_mod_cast hL
  rcases Nat.eq_zero_or_pos t with ht | ht
  · subst ht
    rw [Nat.zero_add, Nat.div_eq_of_lt (by omega)]
    simp
  · have hmod := Nat.div_add_mod (t + L - 1) L
    have hmlt : (t + L - 1) % L < L := Nat.mod_lt _ hL
    set q := (t + L - 1) / L with hq
    have hq1 : 1 ≤ q := by
      rw [hq, Nat.le_div_iff_mul_le hL]
      omega
    obtain ⟨k, hk⟩ : ∃ k, q = k + 1 := ⟨q - 1, by omega⟩
    have key : t ≤ q * L ∧ (q - 1) * L < t := by
      rw [hk, Nat.succ_mul, Nat.add_sub_cancel]
      rw [hk, Nat.mul_add, Nat.mul_one] at hmod
      simp only [Nat.mul_comm k L]
      generalize L * k = x at hmod ⊢
      omega
    symm
    rw [Nat.ceil_eq_iff (by omega)]
    refine ⟨?_, ?_⟩
    · rw [lt_div_iff₀ hLQ]
      exact_mod_cast key.2
    · rw [div_le_iff₀ hLQ]
      exact_mod_cast key.1

/-- `jsSlice` at nonnegative (natural) indices is plain drop-and-take. -/
theorem jsSlice_natCast {α : Type} (l : List α) (a b : Nat) :
    jsSlice l (a : Int) (b : Int) = (l.drop a).take (b - a) := by
  simp only [jsSlice]
  rw [if_neg (by omega), if_neg (by omega)]
  have hs : (min (a : Int) (l.length : Int)).toNat = min a l.length := by omega
  have he : ((min (b : Int) (l.length : Int)) - (min (a : Int) (l.length : Int))).toNat
      = min b l.length - min a l.length := by omega
  rw [hs, he]
  rcases le_or_lt a l.length with han | han
  · rw [min_eq_left (by exact_mod_cast han : (a : Nat) ≤ l.length)]
    rcases le_or_lt b l.length with hbn | hbn
    · rw [min_eq_left hbn]
    · rw [min_eq_right hbn.le]
      rw [List.take_of_length_le (by rw [List.length_drop]),
        List.take_of_length_le (by rw [List.length_drop]; omega)]
  · rw [min_eq_right han.le]
    rw [List.drop_length, List.drop_eq_nil_of_le han.le]
    simp

/-- C1: for every sequence, every 1-indexed `page ≥ 1` and every
`pageSize ≥ 1`, the shared `paginate` primitive returns
`total = length(sequence)`, `totalPages = ⌈total / pageSize⌉`, and
`data = sequence[(page-1)*pageSize : page*pageSize]`; hence
`|data| ≤ pageSize` and `data` is empty (not an error) whenever `page`
exceeds `totalPages`; `getUsers`, `getStudentFeedback` and `getAllFeedback`
all return exactly this primitive applied to their sequences. -/
theorem paginate_spec {α : Type} (l : List α) (page limit : Nat)
    (hp : 1 ≤ page) (hl : 1 ≤ limit) :
    (paginate l page limit).total = l.length ∧
    (paginate l page limit).totalPages = ⌈(l.length : ℚ) / (limit : ℚ)⌉₊ ∧
    (paginate l page limit).data = (l.drop ((page - 1) * limit)).take limit ∧
    (paginate l page limit).data.length ≤ limit ∧
    ((paginate l page limit).totalPages < page → (paginate l page limit).data = []) ∧
    (∀ s sid, getStudentFeedback s sid page limit =
      (.ok (paginate (sortByCreatedAtDesc
        (s.feedbacks.filter (fun f => f.studentId == sid))) page limit), s)) ∧
    (∀ s, getUsers s page limit =
      (.ok (paginate (sortByNameAsc s.users) page limit), s)) ∧
    (∀ s filters, ∃ l' : List Feedback, getAllFeedback s page limit filters =
      (.ok (paginate (sortByCreatedAtDesc l') page limit), s)) := by
  have hdata : (paginate l page limit).data =
      (l.drop ((page - 1) * limit)).take limit := by
    show jsSlice l (((page : Int) - 1) * limit) ((page : Int) * limit) = _
    have hc1 : ((page : Int) - 1) * limit = (((page - 1) * limit : Nat) : Int) := by
      push_cast [Nat.cast_sub hp]
      ring
    have hc2 : (page : Int) * limit = ((page * limit : Nat) : Int) := by
      push_cast
      ring
    rw [hc1, hc2, jsSlice_natCast]
    obtain ⟨k, rfl⟩ : ∃ k, page = k + 1 := ⟨page - 1, by omega⟩
    have harith : (k + 1) * limit - (k + 1 - 1) * limit = limit := by
      rw [Nat.add_sub_cancel, Nat.succ_mul]
      generalize k * limit = x
      omega
    rw [harith]
  refine ⟨rfl, natCeil_div_eq _ _ hl, hdata, ?_, ?_, fun s sid => rfl,
    fun s => rfl, fun s filters => ⟨_, rfl⟩⟩
  · rw [hdata]
    simp [List.length_take]
  · intro h
    rw [hdata]
    have hlen : l.length ≤ (page - 1) * limit := by
      have h1 : (l.length + limit - 1) / limit ≤ page - 1 := by
        have : (paginate l page limit).totalPages = (l.length + limit - 1) / limit := rfl
        omega
      calc l.length ≤ ((l.length + limit - 1) / limit) * limit :=
            le_ceilDivNat_mul _ _ hl
        _ ≤ (page - 1) * limit := Nat.mul_le_mul_right _ h1
    rw [List.drop_eq_nil_of_le hlen]
    simp

/-- Witness for C1 at `l = [10, 20, 30]`, `page = 2`, `limit = 2`. -/
theorem paginate_spec_witness :
    1 ≤ 2 ∧ 1 ≤ 2 ∧
    ((paginate [10, 20, 30] 2 2).total = 3 ∧
     (paginate [10, 20, 30] 2 2).totalPages = ⌈((3 : Nat) : ℚ) / ((2 : Nat) : ℚ)⌉₊ ∧
     (paginate [10, 20, 30] 2 2).data = ([10, 20, 30].drop ((2 - 1) * 2)).take 2 ∧
     (paginate [10, 20, 30] 2 2).data.length ≤ 2 ∧
     ((paginate [10, 20, 30] 2 2).totalPages < 2 → (paginate [10, 20, 30] 2 2).data = []) ∧
     (∀ s sid, getStudentFeedback s sid 2 2 =
       (.ok (paginate (sortByCreatedAtDesc
         (s.feedbacks.filter (fun f => f.studentId == sid))) 2 2), s)) ∧
     (∀ s, getUsers s 2 2 =
       (.ok (paginate (sortByNameAsc s.users) 2 2), s)) ∧
     (∀ s filters, ∃ l' : List Feedback, getAllFeedback s 2 2 filters =
       (.ok (paginate (sortByCreatedAtDesc l') 2 2), s))) :=
  ⟨by norm_num, by norm_num, paginate_spec [10, 20, 30] 2 2 (by norm_num) (by norm_num)⟩

/-! ### Helper lemmas for deletion and pagination of the empty list -/

/-- Filtering twice with the same predicate is the same as filtering once. -/
theorem filter_idem {α : Type} (p : α → Bool) (l : List α) :
    (l.filter p).filter p = l.filter p := by
  induction l with
  | nil => rfl
  | cons x xs ih =>
      by_cases hx : p x <;> simp [List.filter_cons, hx, ih]

/-- `paginate` on the empty sequence: no items, zero total, zero pages. -/
theorem paginate_nil {α : Type} (page N : Nat) :
    paginate ([] : List α) page N = ⟨[], 0, 0⟩ := by
  have hN : (N - 1) / N = 0 := by
    rcases N with _ | n
    · rfl
    · exact Nat.div_eq_of_lt (by omega)
  simp [paginate, jsSlice, hN]

/-- C3: `deleteUser` always resolves with success (also for an absent id),
removes the user with that id and every feedback whose `studentId` equals the
id, leaves courses untouched, is idempotent (the second call is a no-op on
the state, hence on all collection sizes), and afterwards
`getStudentFeedback id page N` returns an empty page for every `page`, `N`. -/
theorem deleteUser_spec (s : ApiState) (id : String) :
    (deleteUser s id).1 = .ok true ∧
    (∀ u ∈ (deleteUser s id).2.users, u.id ≠ id) ∧
    (∀ f ∈ (deleteUser s id).2.feedbacks, f.studentId ≠ id) ∧
    (deleteUser s id).2.courses = s.courses ∧
    deleteUser (deleteUser s id).2 id = (.ok true, (deleteUser s id).2) ∧
    (∀ page N, (getStudentFeedback (deleteUser s id).2 id page N).1 =
      .ok ⟨[], 0, 0⟩) := by
  have hfb : ∀ f ∈ (deleteUser s id).2.feedbacks, f.studentId ≠ id := by
    intro f hf
    simp only [deleteUser, List.mem_filter] at hf
    simpa using hf.2
  refine ⟨rfl, ?_, hfb, rfl, ?_, ?_⟩
  · intro u hu
    simp only [deleteUser, List.mem_filter] at hu
    simpa using hu.2
  · simp [deleteUser, filter_idem]
  · intro page N
    have hfil : (deleteUser s id).2.feedbacks.filter
        (fun f => f.studentId == id) = [] := by
      rw [List.filter_eq_nil_iff]
      intro f hf
      simpa using hfb f hf
    show Except.ok (paginate (sortByCreatedAtDesc
      ((deleteUser s id).2.feedbacks.filter (fun f => f.studentId == id))) page N) = _
    rw [hfil]
    show Except.ok (paginate ([] : List Feedback) page N) = _
    rw [paginate_nil]

/-- C10: `getAllFeedback` tests its optional filters for truthiness: a rating
filter of `0` (and an empty-string course filter) is treated as absent, so no
feedback is excluded by it and a caller passing rating `0` receives the full
(unfiltered) result rather than an empty one. -/
theorem getAllFeedback_truthy_filters (s : ApiState) (page limit : Nat)
    (cid : Option String) (r : Option Nat) :
    getAllFeedback s page limit ⟨cid, some 0⟩ =
      getAllFeedback s page limit ⟨cid, none⟩ ∧
    getAllFeedback s page limit ⟨some "", r⟩ =
      getAllFeedback s page limit ⟨none, r⟩ ∧
    (getAllFeedback s page limit ⟨none, some 0⟩).1 =
      .ok (paginate (sortByCreatedAtDesc s.feedbacks) page limit) := by
  refine ⟨rfl, ?_, rfl⟩
  simp [getAllFeedback]

/-- C8: `login` rejects `Invalid credentials` iff no user has exactly that
email and password, rejects `Your account is blocked.` iff the matched (first
found) user is blocked, otherwise resolves with the matched user record
(password field included); the state is never changed. -/
theorem login_spec (s : ApiState) (email password : String) :
    ((login s email password).1 = .error "Invalid credentials" ↔
      ∀ u ∈ s.users, ¬(u.email = email ∧ u.password = some password)) ∧
    ((login s email password).1 = .error "Your account is blocked." ↔
      ∃ u, s.users.find?
          (fun u => u.email == email && u.password == some password) = some u ∧
        u.isBlocked = true) ∧
    (∀ u, (login s email password).1 = .ok u ↔
      s.users.find?
          (fun u => u.email == email && u.password == some password) = some u ∧
        u.isBlocked = false) ∧
    (login s email password).2 = s := by
  rcases h : s.users.find? (fun u => u.email == email && u.password == some password)
    with _ | u
  · have hall := List.find?_eq_none.mp h
    refine ⟨?_, ?_, ?_, ?_⟩
    · simp only [login, h, true_iff]
      intro u hu
      simpa using hall u hu
    · simp [login, h]
    · intro u
      simp [login, h]
    · simp [login, h]
  · have hmem : u ∈ s.users := List.mem_of_find?_eq_some h
    have hpu' : u.email = email ∧ u.password = some password := by
      have hpu := List.find?_some h
      simpa using hpu
    by_cases hb : u.isBlocked
    · refine ⟨?_, ?_, ?_, ?_⟩
      · simp only [login, h, hb, if_true]
        constructor
        · intro hfalse
          simp at hfalse
        · intro hall
          exact absurd hpu' (hall u hmem)
      · simp [login, h, hb]
      · intro v
        simp [login, h, hb]
        intro hv
        rw [← hv]
        exact hb
      · simp [login, h, hb]
    · refine ⟨?_, ?_, ?_, ?_⟩
      · simp only [login, h, hb, if_false]
        constructor
        · intro hfalse
          simp at hfalse
        · intro hall
          exact absurd hpu' (hall u hmem)
      · simp [login, h, hb]
      · intro v
        simp only [login, h, hb, if_false]
        constructor
        · intro hv
          simp at hv
          simp [← hv, hb]
        · rintro ⟨hv, _⟩
          obtain rfl : u = v := by simpa using hv
          rfl
      · simp [login, h, hb]

/-! ### Error handling: no partial mutation on failure (C9) -/

/-- C9: whenever any store operation rejects, the successor state equals the
previous state — all three collections are exactly as they were before the
call; every rejection path is decided before any write. -/
theorem no_partial_mutation (op : Op) (s : ApiState) (e : String)
    (h : (runOp op s).1 = some e) : (runOp op s).2 = s := by
  cases op with
  | login email password =>
      rcases h' : s.users.find?
          (fun u => u.email == email && u.password == some password) with _ | u
      · simp [runOp, login, h']
      · by_cases hb : u.isBlocked <;> simp [runOp, login, h', hb]
  | signup name email password now =>
      by_cases hc : s.users.any (fun u => u.email == email)
      · simp [runOp, signup, hc]
      · simp [runOp, signup, hc, errOf] at h
  | updateProfile userId d =>
      rcases h' : s.users.find? (fun u => u.id == userId) with _ | u
      · simp [runOp, updateProfile, h']
      · simp [runOp, updateProfile, h', errOf] at h
  | changePassword userId o n =>
      rcases h' : s.users.find? (fun u => u.id == userId) with _ | u
      · simp [runOp, changePassword, h']
      · by_cases hp : u.password == some o
        · simp [runOp, changePassword, h', hp, errOf] at h
        · simp [runOp, changePassword, h', hp]
  | getCourses => rfl
  | addCourse d now => simp [runOp, addCourse, errOf] at h
  | updateCourse id d =>
      rcases h' : s.courses.find? (fun c => c.id == id) with _ | c
      · simp [runOp, updateCourse, h']
      · simp [runOp, updateCourse, h', errOf] at h
  | deleteCourse id => simp [runOp, deleteCourse, errOf] at h
  | getStudentFeedback sid page limit => rfl
  | getAllFeedback page limit filters => rfl
  | addFeedback d now => simp [runOp, addFeedback, errOf] at h
  | updateFeedback id d =>
      rcases h' : s.feedbacks.find? (fun f => f.id == id) with _ | f
      · simp [runOp, updateFeedback, h']
      · simp [runOp, updateFeedback, h', errOf] at h
  | deleteFeedback id => simp [runOp, deleteFeedback, errOf] at h
  | getUsers page limit => rfl
  | updateUserStatus id b =>
      rcases h' : s.users.find? (fun u => u.id == id) with _ | u
      · simp [runOp, updateUserStatus, h']
      · simp [runOp, updateUserStatus, h', errOf] at h
  | deleteUser id => simp [runOp, deleteUser, errOf] at h
  | getDashboardStats => rfl
  | getCourseRatings => rfl

/-- Witness for C9: a failing `changePassword` (absent user on the empty
store) rejects and leaves the state unchanged. -/
theorem no_partial_mutation_witness :
    (runOp (Op.changePassword "user-1" "a" "b") ⟨[], [], []⟩).1 =
      some "Invalid current password" ∧
    (runOp (Op.changePassword "user-1" "a" "b") ⟨[], [], []⟩).2 = ⟨[], [], []⟩ :=
  ⟨rfl, no_partial_mutation (Op.changePassword "user-1" "a" "b") ⟨[], [], []⟩
    "Invalid current password" rfl⟩

/-! ### Concrete fixtures for the claims about specific operations -/

/-- A plain student record used as a test fixture. -/
def mkUser (id name email pw : String) : User :=
  { id := id
    name := name
    email := email
    password := some pw
    role := .student
    profilePicture := none
    phoneNumber := none
    dateOfBirth := none
    address := none
    isBlocked := false
    createdAt := 0 }

/-- C7 counterexample: the two rejection causes of `changePassword` (absent
id, wrong old password) produce the very same error value
`Invalid current password`, so they are not distinguishable by the caller. -/
theorem changePassword_same_error :
    (changePassword ⟨[mkUser "user-1" "N" "n@x" "pw"], [], []⟩
        "user-404" "pw" "new").1 = .error "Invalid current password" ∧
    (changePassword ⟨[mkUser "user-1" "N" "n@x" "pw"], [], []⟩
        "user-1" "wrong" "new").1 = .error "Invalid current password" ∧
    (changePassword ⟨[mkUser "user-1" "N" "n@x" "pw"], [], []⟩
        "user-404" "pw" "new").1 =
      (changePassword ⟨[mkUser "user-1" "N" "n@x" "pw"], [], []⟩
        "user-1" "wrong" "new").1 := by
  refine ⟨?_, ?_, ?_⟩ <;> rfl

/-- C7 (amended): `changePassword` rejects with the single (indistinguishable)
error `Invalid current password` both when no user has the id and when the
stored password differs from the old password, leaving the state unchanged;
otherwise it overwrites the found user's password with the new one and
resolves with success. -/
theorem changePassword_spec (s : ApiState) (userId oldPass newPass : String) :
    (s.users.find? (fun u => u.id == userId) = none →
      changePassword s userId oldPass newPass =
        (.error "Invalid current password", s)) ∧
    (∀ u, s.users.find? (fun u => u.id == userId) = some u →
      (u.password ≠ some oldPass →
        changePassword s userId oldPass newPass =
          (.error "Invalid current password", s)) ∧
      (u.password = some oldPass →
        changePassword s userId oldPass newPass =
          (.ok true, { s with users := updateFirst (fun x => x.id == userId) (fun x => { x with password := some newPass }) s.users }))) := by
  refine ⟨?_, ?_⟩
  · intro h
    simp [changePassword, h]
  · intro u hu
    refine ⟨?_, ?_⟩
    · intro hne
      have : (u.password == some oldPass) = false := by
        simpa using hne
      simp [changePassword, hu, this]
    · intro heq
      have : (u.password == some oldPass) = true := by
        simpa using heq
      simp [changePassword, hu, this]

/-- Witness for C7's amended theorem: on a store with one user, the correct
old password succeeds and overwrites the stored password. -/
theorem changePassword_spec_witness :
    (ApiState.mk [mkUser "user-1" "N" "n@x" "pw"] [] []).users.find?
      (fun u => u.id == "user-1") = some (mkUser "user-1" "N" "n@x" "pw") ∧
    (mkUser "user-1" "N" "n@x" "pw").password = some "pw" ∧
    changePassword ⟨[mkUser "user-1" "N" "n@x" "pw"], [], []⟩ "user-1" "pw" "new" =
      (.ok true, { ApiState.mk [mkUser "user-1" "N" "n@x" "pw"] [] [] with users := updateFirst (fun x => x.id == "user-1") (fun x => { x with password := some "new" }) [mkUser "user-1" "N" "n@x" "pw"] }) :=
  ⟨rfl, rfl,
    ((changePassword_spec ⟨[mkUser "user-1" "N" "n@x" "pw"], [], []⟩
      "user-1" "pw" "new").2 (mkUser "user-1" "N" "n@x" "pw") rfl).2 rfl⟩

/-- C6 counterexample: an `updateProfile` payload containing `role` (or `id`)
overwrites the stored value — the resulting record's role differs from the
old role, so id and role are in fact mutable via this path. -/
theorem updateProfile_role_mutable :
    (updateProfile ⟨[mkUser "user-1" "N" "n@x" "pw"], [], []⟩ "user-1"
        { role := some .admin }).1 =
      .ok { mkUser "user-1" "N" "n@x" "pw" with role := .admin } ∧
    (updateProfile ⟨[mkUser "user-1" "N" "n@x" "pw"], [], []⟩ "user-1"
        { role := some .admin }).2.users =
      [{ mkUser "user-1" "N" "n@x" "pw" with role := .admin }] ∧
    (mkUser "user-1" "N" "n@x" "pw").role ≠ Role.admin := by
  refine ⟨rfl, ?_, by decide⟩
  show List.map _ _ = _
  rfl

/-- C6 (amended): for an existing id, `updateProfile` shallow-merges the
supplied fields over the existing record — fields absent from the payload are
preserved, fields present in the payload (including `id` and `role`)
overwrite the old values — and replaces every entry with that id in the
collection, touching nothing else; for an absent id it fails with
`User not found` and the state is unchanged. -/
theorem updateProfile_spec (s : ApiState) (userId : String) (d : UserPatch) :
    (s.users.find? (fun u => u.id == userId) = none →
      updateProfile s userId d = (.error "User not found", s)) ∧
    (∀ u, s.users.find? (fun u => u.id == userId) = some u →
      (updateProfile s userId d).1 = .ok (mergeUser u d) ∧
      (updateProfile s userId d).2.users =
        s.users.map (fun x => if x.id == userId then mergeUser u d else x) ∧
      (updateProfile s userId d).2.courses = s.courses ∧
      (updateProfile s userId d).2.feedbacks = s.feedbacks ∧
      (d.id = none → (mergeUser u d).id = u.id) ∧
      (d.name = none → (mergeUser u d).name = u.name) ∧
      (d.email = none → (mergeUser u d).email = u.email) ∧
      (d.password = none → (mergeUser u d).password = u.password) ∧
      (d.role = none → (mergeUser u d).role = u.role) ∧
      (d.profilePicture = none →
        (mergeUser u d).profilePicture = u.profilePicture) ∧
      (d.phoneNumber = none → (mergeUser u d).phoneNumber = u.phoneNumber) ∧
      (d.dateOfBirth = none → (mergeUser u d).dateOfBirth = u.dateOfBirth) ∧
      (d.address = none → (mergeUser u d).address = u.address) ∧
      (d.isBlocked = none → (mergeUser u d).isBlocked = u.isBlocked) ∧
      (d.createdAt = none → (mergeUser u d).createdAt = u.createdAt) ∧
      (∀ v, d.id = some v → (mergeUser u d).id = v) ∧
      (∀ v, d.role = some v → (mergeUser u d).role = v) ∧
      (∀ v, d.email = some v → (mergeUser u d).email = v)) := by
  refine ⟨?_, ?_⟩
  · intro h
    simp [updateProfile, h]
  · intro u hu
    refine ⟨?_, ?_, ?_, ?_, ?_, ?_, ?_, ?_, ?_, ?_, ?_, ?_, ?_, ?_, ?_, ?_, ?_, ?_⟩ <;>
      first
        | (simp [updateProfile, hu])
        | (intro hv; simp [mergeUser, hv])
        | (intro v hv; simp [mergeUser, hv])

/-- Witness for C6's amended theorem: updating only the name keeps the other
fields and produces the merged record. -/
theorem updateProfile_spec_witness :
    (ApiState.mk [mkUser "user-1" "N" "n@x" "pw"] [] []).users.find?
      (fun u => u.id == "user-1") = some (mkUser "user-1" "N" "n@x" "pw") ∧
    (updateProfile ⟨[mkUser "user-1" "N" "n@x" "pw"], [], []⟩ "user-1"
        { name := some "X" }).1 =
      .ok (mergeUser (mkUser "user-1" "N" "n@x" "pw") { name := some "X" }) :=
  ⟨rfl,
    ((updateProfile_spec ⟨[mkUser "user-1" "N" "n@x" "pw"], [], []⟩ "user-1"
      { name := some "X" }).2 (mkUser "user-1" "N" "n@x" "pw") rfl).1⟩

/-- C5: email uniqueness is enforced by `signup` (exact case-sensitive
duplicate fails with `Email already exists` and the collection is unchanged),
but `updateProfile` performs no email check: updating user-2's email to
user-1's email succeeds and leaves two users with the same email. -/
theorem updateProfile_breaks_email_uniqueness :
    (signup ⟨[mkUser "user-1" "A" "a@x" "pw", mkUser "user-2" "B" "b@x" "pw"],
        [], []⟩ "Eve" "a@x" "pw" 0).1 = .error "Email already exists" ∧
    (signup ⟨[mkUser "user-1" "A" "a@x" "pw", mkUser "user-2" "B" "b@x" "pw"],
        [], []⟩ "Eve" "a@x" "pw" 0).2.users.length = 2 ∧
    ((updateProfile ⟨[mkUser "user-1" "A" "a@x" "pw", mkUser "user-2" "B" "b@x" "pw"],
        [], []⟩ "user-2" { email := some "a@x" }).2.users.map
      (fun u => u.email)) = ["a@x", "a@x"] ∧
    ¬ ((updateProfile ⟨[mkUser "user-1" "A" "a@x" "pw", mkUser "user-2" "B" "b@x" "pw"],
        [], []⟩ "user-2" { email := some "a@x" }).2.users.map
      (fun u => u.email)).Nodup := by
  refine ⟨rfl, rfl, ?_, ?_⟩ <;> decide

/-- A plain course record used as a test fixture. -/
def mkCourse (id name : String) : Course :=
  { id := id
    name := name
    description := ""
    link := none
    thumbnail := none
    createdAt := 0 }

/-- C4: id freshness fails after a deletion. Starting from users
`user-1`, `user-2` (unique ids), deleting `user-1` and then signing up a new
user assigns id `user-${length + 1} = user-2`, which collides with the
surviving user; likewise `addCourse` reuses `course-2` after `course-1` is
deleted. -/
theorem signup_reuses_id_after_delete :
    ((signup (deleteUser ⟨[mkUser "user-1" "A" "a@x" "pw",
          mkUser "user-2" "B" "b@x" "pw"], [], []⟩ "user-1").2
        "Eve" "eve@x" "pw" 7).2.users.map (fun u => u.id)) =
      ["user-2", "user-2"] ∧
    ¬ ((signup (deleteUser ⟨[mkUser "user-1" "A" "a@x" "pw",
          mkUser "user-2" "B" "b@x" "pw"], [], []⟩ "user-1").2
        "Eve" "eve@x" "pw" 7).2.users.map (fun u => u.id)).Nodup ∧
    ((addCourse (deleteCourse ⟨[], [mkCourse "course-1" "C1",
          mkCourse "course-2" "C2"], []⟩ "course-1").2
        ⟨"C3", "", none, none⟩ 7).2.courses.map (fun c => c.id)) =
      ["course-2", "course-2"] ∧
    ¬ ((addCourse (deleteCourse ⟨[], [mkCourse "course-1" "C1",
          mkCourse "course-2" "C2"], []⟩ "course-1").2
        ⟨"C3", "", none, none⟩ 7).2.courses.map (fun c => c.id)).Nodup := by
  refine ⟨?_, ?_, ?_, ?_⟩ <;> decide

/-! ### Aggregation (C2) -/

/-- Sum of `rating` over the feedback entries with a given course id. -/
def sumRatings (fbs : List Feedback) (cid : String) : Nat :=
  ((fbs.filter (fun f => f.courseId == cid)).map (fun f => f.rating)).sum

/-- Number of feedback entries with a given course id. -/
def countRatings (fbs : List Feedback) (cid : String) : Nat :=
  (fbs.filter (fun f => f.courseId == cid)).length

theorem sumRatings_cons (f : Feedback) (l : List Feedback) (cid : String) :
    sumRatings (f :: l) cid =
      (if f.courseId = cid then f.rating else 0) + sumRatings l cid := by
  by_cases h : f.courseId = cid <;> simp [sumRatings, List.filter_cons, h]

theorem countRatings_cons (f : Feedback) (l : List Feedback) (cid : String) :
    countRatings (f :: l) cid =
      (if f.courseId = cid then 1 else 0) + countRatings l cid := by
  by_cases h : f.courseId = cid
  · simp [countRatings, List.filter_cons, h]
    omega
  · simp [countRatings, List.filter_cons, h]

theorem mapGet?_cons (k : String) (tc : Nat × Nat)
    (rest : List (String × Nat × Nat)) (cid : String) :
    mapGet? ((k, tc) :: rest) cid =
      if k = cid then some tc else mapGet? rest cid := by
  by_cases hb : k = cid
  · have hb2 : (k == cid) = true := by simpa using hb
    simp [mapGet?, List.find?, hb, hb2]
  · have hb2 : (k == cid) = false := by simpa using hb
    simp [mapGet?, List.find?, hb, hb2]

theorem mapGet?_mapBump (m : List (String × Nat × Nat)) (cid : String) (r : Nat)
    (q : String) :
    mapGet? (mapBump m cid r) q =
      if q = cid then
        match mapGet? m cid with
        | some p => some (p.1 + r, p.2 + 1)
        | none => some (r, 1)
      else mapGet? m q := by
  induction m with
  | nil =>
      by_cases h : q = cid
      · subst h
        simp [mapBump, mapGet?_cons, mapGet?]
      · have h2 : ¬cid = q := Ne.symm h
        simp [mapBump, mapGet?_cons, mapGet?, h, h2]
  | cons e rest ih =>
      obtain ⟨k, tc⟩ := e
      by_cases hk : k = cid
      · subst hk
        rw [show mapBump ((k, tc) :: rest) k r = (k, (tc.1 + r, tc.2 + 1)) :: rest by
          simp [mapBump]]
        by_cases h' : q = k
        · subst h'
          simp [mapGet?_cons]
        · have h2 : ¬k = q := Ne.symm h'
          simp [mapGet?_cons, h2, h']
      · rw [show mapBump ((k, tc) :: rest) cid r = (k, tc) :: mapBump rest cid r by
          simp [mapBump, hk]]
        by_cases h' : q = k
        · subst h'
          have hqc : ¬ q = cid := fun hc => hk (hc ▸ rfl)
          simp [mapGet?_cons, hqc]
        · rw [mapGet?_cons, if_neg (fun hc : k = q => h' hc.symm), ih,
            mapGet?_cons, if_neg (fun hc : k = cid => hk hc),
            mapGet?_cons, if_neg (fun hc : k = q => h' hc.symm)]

theorem ratingsMap_foldl_get (fbs : List Feedback)
    (m : List (String × Nat × Nat)) (cid : String) :
    mapGet? (fbs.foldl (fun acc f => mapBump acc f.courseId f.rating) m) cid =
      match mapGet? m cid with
      | some p => some (p.1 + sumRatings fbs cid, p.2 + countRatings fbs cid)
      | none =>
          if countRatings fbs cid = 0 then none
          else some (sumRatings fbs cid, countRatings fbs cid) := by
  induction fbs generalizing m with
  | nil =>
      simp only [List.foldl_nil, sumRatings, countRatings, List.filter_nil,
        List.map_nil, List.sum_nil, List.length_nil]
      cases mapGet? m cid <;> simp
  | cons f rest ih =>
      rw [List.foldl_cons, ih, mapGet?_mapBump, sumRatings_cons, countRatings_cons]
      by_cases hf : f.courseId = cid
      · simp only [hf, if_pos]
        cases hm : mapGet? m cid with
        | none => simp
        | some p => simp [Nat.add_assoc]
      · have h1 : ¬ cid = f.courseId := fun hc => hf hc.symm
        simp only [if_neg hf, if_neg h1, Nat.zero_add]

theorem courseAvg_eq (fbs : List Feedback) (cid : String) :
    courseAvg (ratingsMap fbs) cid =
      if countRatings fbs cid = 0 then 0
      else roundTo2 ((sumRatings fbs cid : ℚ) / (countRatings fbs cid : ℚ)) := by
  have hget : mapGet? (ratingsMap fbs) cid =
      if countRatings fbs cid = 0 then none
      else some (sumRatings fbs cid, countRatings fbs cid) := by
    have h := ratingsMap_foldl_get fbs [] cid
    simpa [ratingsMap, mapGet?] using h
  by_cases h : countRatings fbs cid = 0
  · rw [if_pos h]
    simp only [courseAvg, hget, if_pos h]
    norm_num [roundTo2]
  · rw [if_neg h]
    simp only [courseAvg, hget, if_neg h, h, if_false]

/-- Totality of the descending-average comparator. -/
instance : IsTotal (String × ℚ) (fun a b => b.2 ≤ a.2) :=
  ⟨fun a b => le_total b.2 a.2⟩

/-- Transitivity of the descending-average comparator. -/
instance : IsTrans (String × ℚ) (fun a b => b.2 ≤ a.2) :=
  ⟨fun _ _ _ h1 h2 => le_trans h2 h1⟩

/-- The two sample courses of the aggregation example. -/
def courseEx (id name : String) : Course :=
  { id := id
    name := name
    description := ""
    link := none
    thumbnail := none
    createdAt := 0 }

/-- A sample feedback entry of the aggregation example. -/
def fbEx (id cid : String) (r : Nat) : Feedback :=
  { id := id
    studentId := "user-2"
    studentName := "S"
    courseId := cid
    rating := r
    message := ""
    createdAt := 0 }

/-- C2: `getCourseRatings` yields exactly one `{name, averageRating}` entry
per existing course (a permutation of the per-course list, same length);
each average is the sum of matching ratings divided by their count (a course
with zero feedback gets `0 / 1 = 0`), rounded to two decimals; the result is
sorted by average descending; and on courses `[A, B]` with feedback
`[{A,4}, {A,2}, {B,5}]` it yields `[(B, 5), (A, 3)]`. -/
theorem getCourseRatings_spec :
    (∀ s : ApiState, ∃ L : List (String × ℚ),
      getCourseRatings s = (.ok L, s) ∧
      L.Perm (s.courses.map (fun c =>
        (c.name, courseAvg (ratingsMap s.feedbacks) c.id))) ∧
      L.length = s.courses.length ∧
      List.Sorted (fun a b => b.2 ≤ a.2) L ∧
      (∀ cid, courseAvg (ratingsMap s.feedbacks) cid =
        if countRatings s.feedbacks cid = 0 then 0
        else roundTo2 ((sumRatings s.feedbacks cid : ℚ) /
          (countRatings s.feedbacks cid : ℚ)))) ∧
    (getCourseRatings ⟨[], [courseEx "course-A" "A", courseEx "course-B" "B"],
        [fbEx "f1" "course-A" 4, fbEx "f2" "course-A" 2,
         fbEx "f3" "course-B" 5]⟩).1 =
      .ok [("B", (5 : ℚ)), ("A", (3 : ℚ))] := by
  constructor
  · intro s
    refine ⟨_, rfl, ?_, ?_, ?_, fun cid => courseAvg_eq s.feedbacks cid⟩
    · exact (List.perm_insertionSort _ _)
    · rw [(List.perm_insertionSort _ _).length_eq, List.length_map]
    · exact List.sorted_insertionSort _ _
  · have hA : courseAvg (ratingsMap [fbEx "f1" "course-A" 4,
        fbEx "f2" "course-A" 2, fbEx "f3" "course-B" 5]) "course-A" = 3 := by
      have hs : sumRatings [fbEx "f1" "course-A" 4, fbEx "f2" "course-A" 2,
          fbEx "f3" "course-B" 5] "course-A" = 6 := by decide
      have hc : countRatings [fbEx "f1" "course-A" 4, fbEx "f2" "course-A" 2,
          fbEx "f3" "course-B" 5] "course-A" = 2 := by decide
      rw [courseAvg_eq, hs, hc]
      norm_num [roundTo2, round_eq]
    have hB : courseAvg (ratingsMap [fbEx "f1" "course-A" 4,
        fbEx "f2" "course-A" 2, fbEx "f3" "course-B" 5]) "course-B" = 5 := by
      have hs : sumRatings [fbEx "f1" "course-A" 4, fbEx "f2" "course-A" 2,
          fbEx "f3" "course-B" 5] "course-B" = 5 := by decide
      have hc : countRatings [fbEx "f1" "course-A" 4, fbEx "f2" "course-A" 2,
          fbEx "f3" "course-B" 5] "course-B" = 1 := by decide
      rw [courseAvg_eq, hs, hc]
      norm_num [roundTo2, round_eq]
    show Except.ok (List.insertionSort _ _) = _
    rw [show (ApiState.mk [] [courseEx "course-A" "A", courseEx "course-B" "B"]
        [fbEx "f1" "course-A" 4, fbEx "f2" "course-A" 2,
         fbEx "f3" "course-B" 5]).courses.map (fun c =>
          (c.name, courseAvg (ratingsMap [fbEx "f1" "course-A" 4,
            fbEx "f2" "course-A" 2, fbEx "f3" "course-B" 5]) c.id)) =
        [("A", (3 : ℚ)), ("B", (5 : ℚ))] by
      simp [courseEx, hA, hB]]
    rw [show List.insertionSort (fun a b : String × ℚ => b.2 ≤ a.2)
        [("A", (3 : ℚ)), ("B", (5 : ℚ))] = [("B", (5 : ℚ)), ("A", (3 : ℚ))] by
      norm_num [List.insertionSort, List.orderedInsert]]

end MockApi
